import Mathlib

/-!
Verification of the process-orchestration core of the yt-dlp GUI
(src/ytdlp_qt_gui.py and src/ytdlp_tkinter_gui.py).  The two front-ends
duplicate the same logic; where they differ (finalization order, relay
contents) the embedding models each variant explicitly.  Strings are modelled
with Lean strings; Python str.strip() is modelled over ASCII whitespace;
os.path.join is modelled with posixpath semantics (two components), matching
the path shapes used throughout the specification.
-/

namespace YtDlpGui

/-- ASCII whitespace characters stripped by Python `str.strip()`. -/
def isPySpace (c : Char) : Bool :=
  c = ' ' || c = '\t' || c = '\n' || c = '\r' || c = '\x0b' || c = '\x0c'

/-- Python `str.strip()` (no argument): drop whitespace from both ends. -/
def pyStrip (s : String) : String :=
  String.mk (((s.data.dropWhile isPySpace).reverse.dropWhile isPySpace).reverse)

/-- Does the string start with the path separator `/`? -/
def headIsSlash (s : String) : Bool :=
  match s.data with
  | [] => false
  | c :: _ => c = '/'

/-- Does the string end with the path separator `/`? -/
def lastIsSlash (s : String) : Bool :=
  s.data.getLast? = some '/'

/-- `os.path.join(a, b)` for two components, posixpath semantics:
if `b` is absolute it wins; otherwise the parts are joined with `/`
unless `a` is empty or already ends in `/`. -/
def osPathJoin (a b : String) : String :=
  if headIsSlash b then b
  else if a = "" || lastIsSlash a then a ++ b
  else a ++ "/" ++ b

/-- The widget values read by `start_download`
(qt lines 288-320, tkinter lines 317-348).  `radio_audio = true` means the
Audio radio button is checked; `false` means Video. -/
structure GuiState where
  radio_audio : Bool
  url_entry : String
  filename_entry : String
  format_entry : String
  download_folder : String
  deriving Repr, DecidableEq

/-- `base = filename.strip() or "%(title)s"`;
`output_template = os.path.join(download_folder, base + ".%(ext)s")`
(qt lines 292-293, tkinter lines 320-321). -/
def outputTemplate (st : GuiState) : String :=
  osPathJoin st.download_folder
    ((if pyStrip st.filename_entry = "" then "%(title)s" else pyStrip st.filename_entry)
      ++ ".%(ext)s")

/-- The command `start_download` builds and hands to the worker thread
(qt lines 296-318, tkinter lines 324-346): audio extraction when the Audio
radio is checked; a `-F` format probe for Video with a blank format entry;
otherwise the video download command.  The url and the format entry are
inserted verbatim (untrimmed). -/
def buildCommand (exe : String) (st : GuiState) : List String :=
  if st.radio_audio then
    [exe, "-x", "--audio-format", "mp3", "-o", outputTemplate st, st.url_entry]
  else if pyStrip st.format_entry = "" then
    [exe, "-F", st.url_entry]
  else
    [exe, "-f", st.format_entry, "--merge-output-format", "mp4", "-o",
      outputTemplate st, st.url_entry]

/-- The lifecycle/output events of a job as seen by the consumer side
(spec `OutputEvent`): a relayed output line, or job completion.  In the Qt
front-end both travel as queued signal emissions (`output_signal`,
`process_finished`); in the Tkinter front-end lines travel through
`output_queue` and completion is the worker's finalization. -/
inductive OutputEvent where
  | line (s : String)
  | finished
  deriving DecidableEq, Repr

/-- One atomic statement of the orchestration code, at the granularity of the
single Python statements of `run_process` and its completion handler. -/
inductive Instr where
  | setRunning (b : Bool)
  | spawnProc
  | pushLine (s : String)
  | waitProc (code : Int)
  | emitFinished
  | hideProgress
  | validateUi
  deriving DecidableEq, Repr

/-- The concurrently shared state of the orchestration core: the
`process_running` flag, the relay of queued events, and instrumentation
counting `Popen` and `wait` calls.  `url_has_text` abstracts
`bool(url_entry.text().strip())`, which no orchestration step changes. -/
structure SysState where
  process_running : Bool
  url_has_text : Bool
  download_btn_enabled : Bool
  progress_visible : Bool
  spawned : Nat
  waited : Nat
  relay : List OutputEvent
  deriving Repr, DecidableEq

/-- Effect of one atomic statement.  `validateUi` is `validate`
(qt lines 251-257, tkinter lines 272-280): with a job running the Download
button is disabled, otherwise it is enabled exactly when the url field has
text. -/
def step (st : SysState) : Instr → SysState
  | Instr.setRunning b => { st with process_running := b }
  | Instr.spawnProc => { st with spawned := st.spawned + 1 }
  | Instr.pushLine s => { st with relay := st.relay ++ [OutputEvent.line s] }
  | Instr.waitProc _ => { st with waited := st.waited + 1 }
  | Instr.emitFinished => { st with relay := st.relay ++ [OutputEvent.finished] }
  | Instr.hideProgress => { st with progress_visible := false }
  | Instr.validateUi =>
      { st with download_btn_enabled :=
          if st.process_running then false else st.url_has_text }

/-- Run a sequence of atomic statements from a state. -/
def execFrom (st : SysState) (tr : List Instr) : SysState :=
  tr.foldl step st

/-- Initial state: idle, url already entered, nothing spawned, empty relay. -/
def initSys : SysState :=
  { process_running := false, url_has_text := true, download_btn_enabled := true,
    progress_visible := false, spawned := 0, waited := 0, relay := [] }

/-- The worker-thread body `run_process` of the Qt front-end (lines 264-281):
set the running flag, spawn, relay each line read, and - only if the read
loop reaches end-of-stream (`readOk`) - wait on the process; the `finally`
block emits the finished signal in every case.  `ls` are the lines
successfully read; `code` is the process exit status, which the code never
inspects. -/
def runProcessQt (ls : List String) (readOk : Bool) (code : Int) : List Instr :=
  [Instr.setRunning true, Instr.spawnProc] ++ ls.map Instr.pushLine
    ++ (if readOk then [Instr.waitProc code] else []) ++ [Instr.emitFinished]

/-- `on_process_finished` (qt lines 283-286), run by the GUI thread when it
observes the finished signal: clear the running flag, hide the progress bar,
re-validate the Download button. -/
def onFinishedHandler : List Instr :=
  [Instr.setRunning false, Instr.hideProgress, Instr.validateUi]

/-- A complete Qt job: the worker body followed by the GUI thread's handling
of the finished signal. -/
def qtJobTrace (ls : List String) (readOk : Bool) (code : Int) : List Instr :=
  runProcessQt ls readOk code ++ onFinishedHandler

/-- The worker-thread body `run_process` of the Tkinter front-end
(lines 290-313): same pump, but the `finally` block itself clears the
running flag and re-validates; no discrete finished event is queued. -/
def runProcessTk (ls : List String) (readOk : Bool) (code : Int) : List Instr :=
  [Instr.setRunning true, Instr.spawnProc] ++ ls.map Instr.pushLine
    ++ (if readOk then [Instr.waitProc code] else [])
    ++ [Instr.setRunning false, Instr.validateUi]

/-- Number of `wait` (process-reaping) calls in a trace. -/
def countWaits : List Instr → Nat
  | [] => 0
  | Instr.waitProc _ :: tr => countWaits tr + 1
  | _ :: tr => countWaits tr

/-- `queue.Queue.put` / a queued signal emission: append to the unbounded
FIFO buffer.  Total - the producer never blocks and the event is never
dropped. -/
def qput {α : Type} (q : List α) (e : α) : List α := q ++ [e]

/-- The consumer's drain loop `process_queue` (qt lines 473-475, tkinter
lines 366-369): `while not empty: deliver(get())`; returns the delivered
events in the order they are handed out. -/
def processQueue {α : Type} : List α → List α
  | [] => []
  | e :: rest => e :: processQueue rest

/-- The relay contents produced by one complete Qt job started from the
initial state. -/
def jobEvents (ls : List String) (readOk : Bool) (code : Int) : List OutputEvent :=
  (execFrom initSys (qtJobTrace ls readOk code)).relay

/-- Is `zs` an interleaving (merge preserving each thread's program order) of
the two instruction streams `xs` and `ys`? -/
def isInterleaving : List Instr → List Instr → List Instr → Bool
  | [], ys, zs => decide (ys = zs)
  | x :: xs, [], zs => decide (x :: xs = zs)
  | _ :: _, _ :: _, [] => false
  | x :: xs, y :: ys, z :: zs =>
      (decide (z = x) && isInterleaving xs (y :: ys) zs)
      || (decide (z = y) && isInterleaving (x :: xs) ys zs)

/-- The instruction stream of one worker thread for a job with no output
lines, a clean read and exit status 0. -/
def threadTrace : List Instr := qtJobTrace [] true 0

/-- A schedule of two Download clicks: the first job sets the flag and
spawns, then the second start runs in full while the first is still Running,
then the first finishes. -/
def badScheduleC1 : List Instr :=
  [Instr.setRunning true, Instr.spawnProc,
   Instr.setRunning true, Instr.spawnProc, Instr.waitProc 0, Instr.emitFinished,
   Instr.setRunning false, Instr.hideProgress, Instr.validateUi,
   Instr.waitProc 0, Instr.emitFinished, Instr.setRunning false,
   Instr.hideProgress, Instr.validateUi]

/-- A schedule of two Download clicks in which both starts run their flag
write and then both spawn. -/
def badScheduleC2 : List Instr :=
  [Instr.setRunning true, Instr.setRunning true,
   Instr.spawnProc, Instr.spawnProc,
   Instr.waitProc 0, Instr.emitFinished, Instr.setRunning false,
   Instr.hideProgress, Instr.validateUi,
   Instr.waitProc 0, Instr.emitFinished, Instr.setRunning false,
   Instr.hideProgress, Instr.validateUi]

/-- Observable actions of the module-level startup code. -/
inductive StartupStep where
  | updateProbe
  | showError (msg : String)
  | exitProgram (code : Nat)
  | launchGui
  deriving DecidableEq, Repr

/-- The module-level startup probe (qt lines 61-67, tkinter lines 63-70):
try to run the executable with `--update`; if the attempt raises
file-not-found, show an error dialog and exit before any interactive surface
is built; otherwise proceed to build the main window. -/
def startupTrace (exeFound : Bool) : List StartupStep :=
  if exeFound then [StartupStep.updateProbe, StartupStep.launchGui]
  else
    [StartupStep.updateProbe,
     StartupStep.showError "yt-dlp was not found in PATH",
     StartupStep.exitProgram 1]

/-- Number of interactive-surface launches in a startup trace. -/
def countLaunches : List StartupStep → Nat
  | [] => 0
  | StartupStep.launchGui :: tr => countLaunches tr + 1
  | _ :: tr => countLaunches tr

/-- Number of update-probe invocations in a startup trace. -/
def countProbes : List StartupStep → Nat
  | [] => 0
  | StartupStep.updateProbe :: tr => countProbes tr + 1
  | _ :: tr => countProbes tr

theorem strData_append (s t : String) : (s ++ t).data = s.data ++ t.data := by
  cases s; cases t; rfl

theorem suffix_osPathJoin (a b : String) : b.data <:+ (osPathJoin a b).data := by
  unfold osPathJoin
  split
  · exact List.suffix_refl _
  · split
    · rw [strData_append]; exact List.suffix_append _ _
    · rw [strData_append]; exact List.suffix_append _ _

theorem template_suffix (st : GuiState) :
    ".%(ext)s".data <:+ (outputTemplate st).data := by
  unfold outputTemplate
  refine List.IsSuffix.trans ?_ (suffix_osPathJoin _ _)
  rw [strData_append]
  exact List.suffix_append _ _

/-- Claim C5: for an Audio job the command is
`[exe, -x, --audio-format, mp3, -o, template, url]`, where the template joins
the destination folder with the trimmed basename (or `%(title)s` when the
trimmed basename is empty) followed by `.%(ext)s`; the `-o` value always ends
in `.%(ext)s`. -/
theorem audio_command_shape (exe : String) (st : GuiState)
    (h : st.radio_audio = true) :
    buildCommand exe st
      = [exe, "-x", "--audio-format", "mp3", "-o",
          osPathJoin st.download_folder
            ((if pyStrip st.filename_entry = "" then "%(title)s"
              else pyStrip st.filename_entry) ++ ".%(ext)s"),
          st.url_entry]
    ∧ ".%(ext)s".data <:+ (outputTemplate st).data := by
  refine ⟨?_, template_suffix st⟩
  simp [buildCommand, outputTemplate, h]

/-- Scenario from Claim C5: Audio, url `https://x/1`, empty basename,
destination `/tmp` yields `[-x, --audio-format, mp3, -o,
/tmp/%(title)s.%(ext)s, https://x/1]` after the executable. -/
theorem audio_command_shape_witness :
    buildCommand "yt-dlp"
        { radio_audio := true, url_entry := "https://x/1", filename_entry := "",
          format_entry := "", download_folder := "/tmp" }
      = ["yt-dlp", "-x", "--audio-format", "mp3", "-o",
          "/tmp/%(title)s.%(ext)s", "https://x/1"]
    ∧ ".%(ext)s".data <:+ (outputTemplate
        { radio_audio := true, url_entry := "https://x/1", filename_entry := "",
          format_entry := "", download_folder := "/tmp" }).data := by
  have h := audio_command_shape "yt-dlp"
    { radio_audio := true, url_entry := "https://x/1", filename_entry := "",
      format_entry := "", download_folder := "/tmp" } rfl
  refine ⟨h.1.trans (by decide), h.2⟩

/-- Claim C6: for a Video job whose format entry is empty or whitespace-only
after trimming, the command is exactly the probe `[exe, -F, url]`, regardless
of basename and destination folder. -/
theorem video_probe_command (exe : String) (st : GuiState)
    (h : st.radio_audio = false) (hf : pyStrip st.format_entry = "") :
    buildCommand exe st = [exe, "-F", st.url_entry] := by
  simp [buildCommand, h, hf]

/-- Scenario from Claim C6: Video with an all-whitespace format entry is a
probe `[-F, https://x/1]` whatever the basename and folder are. -/
theorem video_probe_command_witness :
    pyStrip " \t " = ""
    ∧ buildCommand "yt-dlp"
        { radio_audio := false, url_entry := "https://x/1",
          filename_entry := "zz", format_entry := " \t ",
          download_folder := "/d" }
      = ["yt-dlp", "-F", "https://x/1"] :=
  ⟨by decide,
    video_probe_command "yt-dlp"
      { radio_audio := false, url_entry := "https://x/1",
        filename_entry := "zz", format_entry := " \t ",
        download_folder := "/d" } rfl (by decide)⟩

/-- Claim C7: for a Video job whose format entry is non-empty after trimming,
the command carries `-f <format>` and `--merge-output-format mp4` together
with `-o <template>` and the url; emptiness of the format and the basename is
checked on the trimmed text. -/
theorem video_download_command (exe : String) (st : GuiState)
    (h : st.radio_audio = false) (hf : pyStrip st.format_entry ≠ "") :
    buildCommand exe st
      = [exe, "-f", st.format_entry, "--merge-output-format", "mp4", "-o",
          outputTemplate st, st.url_entry] := by
  simp [buildCommand, h, hf]

/-- Scenario from Claim C7: Video with format `137+140`, basename ` clip `
(trimmed to `clip`), folder `/d` yields the full download command. -/
theorem video_download_command_witness :
    pyStrip "137+140" ≠ ""
    ∧ buildCommand "yt-dlp"
        { radio_audio := false, url_entry := "https://x/1",
          filename_entry := " clip ", format_entry := "137+140",
          download_folder := "/d" }
      = ["yt-dlp", "-f", "137+140", "--merge-output-format", "mp4", "-o",
          "/d/clip.%(ext)s", "https://x/1"] := by
  refine ⟨by decide, ?_⟩
  have h := video_download_command "yt-dlp"
    { radio_audio := false, url_entry := "https://x/1",
      filename_entry := " clip ", format_entry := "137+140",
      download_folder := "/d" } rfl (by decide)
  exact h.trans (by decide)

/-- Claim C10: the url is inserted verbatim as the final argument of every
generated command, and in the video-download branch the argument following
`-f` is the raw (untrimmed) format entry. -/
theorem raw_values_in_command (exe : String) (st : GuiState) :
    (buildCommand exe st).getLast? = some st.url_entry
    ∧ (st.radio_audio = false → pyStrip st.format_entry ≠ "" →
        (buildCommand exe st)[2]? = some st.format_entry) := by
  constructor
  · unfold buildCommand
    split
    · show ([exe, "-x", "--audio-format", "mp3", "-o", outputTemplate st]
        ++ [st.url_entry]).getLast? = some st.url_entry
      exact List.getLast?_concat _
    · split
      · show ([exe, "-F"] ++ [st.url_entry]).getLast? = some st.url_entry
        exact List.getLast?_concat _
      · show ([exe, "-f", st.format_entry, "--merge-output-format", "mp4",
          "-o", outputTemplate st] ++ [st.url_entry]).getLast? = some st.url_entry
        exact List.getLast?_concat _
  · intro h hf
    simp [buildCommand, h, hf]

/-- Witness for Claim C10: a url with surrounding spaces and a format entry
with surrounding spaces both reach the command unchanged. -/
theorem raw_values_in_command_witness :
    (buildCommand "yt-dlp"
        { radio_audio := false, url_entry := "  https://x/1 ",
          filename_entry := "x", format_entry := " 137 ",
          download_folder := "/d" }).getLast? = some "  https://x/1 "
    ∧ (buildCommand "yt-dlp"
        { radio_audio := false, url_entry := "  https://x/1 ",
          filename_entry := "x", format_entry := " 137 ",
          download_folder := "/d" })[2]? = some " 137 " := by
  have h := raw_values_in_command "yt-dlp"
    { radio_audio := false, url_entry := "  https://x/1 ",
      filename_entry := "x", format_entry := " 137 ",
      download_folder := "/d" }
  exact ⟨h.1, h.2 rfl (by decide)⟩

theorem execFrom_append (st : SysState) (a b : List Instr) :
    execFrom st (a ++ b) = execFrom (execFrom st a) b := by
  simp [execFrom]

theorem execFrom_nil (st : SysState) : execFrom st [] = st := rfl

theorem execFrom_cons (st : SysState) (i : Instr) (tr : List Instr) :
    execFrom st (i :: tr) = execFrom (step st i) tr := rfl

theorem exec_pushLines (ls : List String) (st : SysState) :
    execFrom st (ls.map Instr.pushLine)
      = { st with relay := st.relay ++ ls.map OutputEvent.line } := by
  induction ls generalizing st with
  | nil => simp [execFrom]
  | cons l ls ih =>
    rw [List.map_cons, execFrom_cons, ih]
    simp [step, List.append_assoc]

theorem exec_qtJobTrace (st : SysState) (ls : List String) (readOk : Bool)
    (ec : Int) :
    execFrom st (qtJobTrace ls readOk ec)
      = { st with
            process_running := false,
            download_btn_enabled := st.url_has_text,
            progress_visible := false,
            spawned := st.spawned + 1,
            waited := st.waited + (if readOk then 1 else 0),
            relay := st.relay ++ ls.map OutputEvent.line
              ++ [OutputEvent.finished] } := by
  unfold qtJobTrace runProcessQt onFinishedHandler
  cases readOk <;>
    simp [execFrom_append, execFrom_cons, execFrom_nil, exec_pushLines, step,
      List.append_assoc]

theorem exec_runProcessTk (st : SysState) (ls : List String) (readOk : Bool)
    (ec : Int) :
    execFrom st (runProcessTk ls readOk ec)
      = { st with
            process_running := false,
            download_btn_enabled := st.url_has_text,
            spawned := st.spawned + 1,
            waited := st.waited + (if readOk then 1 else 0),
            relay := st.relay ++ ls.map OutputEvent.line } := by
  unfold runProcessTk
  cases readOk <;>
    simp [execFrom_append, execFrom_cons, execFrom_nil, exec_pushLines, step,
      List.append_assoc]

theorem qtJobTrace_eq_cons (ls : List String) (readOk : Bool) (ec : Int) :
    qtJobTrace ls readOk ec
      = Instr.setRunning true :: Instr.spawnProc ::
          (ls.map Instr.pushLine ++ (if readOk then [Instr.waitProc ec] else [])
            ++ [Instr.emitFinished] ++ onFinishedHandler) := by
  simp [qtJobTrace, runProcessQt]

theorem spawnProc_not_mem (ls : List String) (readOk : Bool) (ec : Int) :
    Instr.spawnProc ∉
      (ls.map Instr.pushLine ++ (if readOk then [Instr.waitProc ec] else [])
        ++ [Instr.emitFinished] ++ onFinishedHandler) := by
  intro h
  cases readOk <;> simp [onFinishedHandler] at h

theorem countWaits_append (a b : List Instr) :
    countWaits (a ++ b) = countWaits a + countWaits b := by
  induction a with
  | nil => simp [countWaits]
  | cons x a ih => cases x <;> simp [countWaits, ih, Nat.add_right_comm]

theorem countWaits_pushLines (ls : List String) :
    countWaits (ls.map Instr.pushLine) = 0 := by
  induction ls with
  | nil => rfl
  | cons l ls ih => simp [countWaits, ih]

theorem foldl_qput {α : Type} (q evs : List α) :
    List.foldl qput q evs = q ++ evs := by
  induction evs generalizing q with
  | nil => simp
  | cons e evs ih => simp [qput, ih]

theorem processQueue_eq {α : Type} (l : List α) : processQueue l = l := by
  induction l with
  | nil => rfl
  | cons e rest ih => simp [processQueue, ih]

/-- Claim C1 (code evidence): `start_download` consults no run-state guard,
so a second Download click issued while the first job is Running
(`process_running = true` after the first job's opening statements) is a
valid interleaving of the two thread bodies in which the second start spawns
a second external process: two `Popen` calls occur in total. -/
theorem double_click_spawns_two_processes :
    isInterleaving threadTrace threadTrace badScheduleC1 = true
    ∧ (execFrom initSys (badScheduleC1.take 2)).process_running = true
    ∧ (execFrom initSys badScheduleC1).spawned = 2 := by decide

/-- Claim C2 (counterexample): an interleaving of two start calls in which
both run their flag write and both spawn - two processes are spawned, so the
transition is not an atomic guarded test-and-set preventing this. -/
theorem interleaved_starts_both_spawn_cex :
    isInterleaving threadTrace threadTrace badScheduleC2 = true
    ∧ (execFrom initSys badScheduleC2).spawned = 2 := by decide

/-- Claim C2 (amended): within `run_process` the write of `Running` does
occur strictly before the spawn in program order - at the moment the spawn
statement executes, every prefix of the job trace leading up to it has
already set the flag - but it is an unconditional store, not a guarded
atomic transition. -/
theorem running_set_before_spawn (st : SysState) (ls : List String)
    (readOk : Bool) (ec : Int) (pre post : List Instr)
    (h : qtJobTrace ls readOk ec = pre ++ Instr.spawnProc :: post) :
    (execFrom st pre).process_running = true := by
  rw [qtJobTrace_eq_cons] at h
  cases pre with
  | nil =>
    rw [List.nil_append] at h
    injection h with h1 h2
    exact Instr.noConfusion h1
  | cons x pre' =>
    rw [List.cons_append] at h
    injection h with hx h
    cases pre' with
    | nil =>
      subst hx
      simp [execFrom, step]
    | cons y pre'' =>
      rw [List.cons_append] at h
      injection h with hy h
      have hm : Instr.spawnProc ∈ pre'' ++ Instr.spawnProc :: post :=
        List.mem_append_right _ (List.mem_cons_self _ _)
      rw [← h] at hm
      exact absurd hm (spawnProc_not_mem ls readOk ec)

/-- Witness for Claim C2 (amended): in the concrete no-output job the spawn
is at index 1 and the prefix before it has already set the flag. -/
theorem running_set_before_spawn_witness :
    qtJobTrace [] true 0
      = [Instr.setRunning true] ++ Instr.spawnProc ::
          [Instr.waitProc 0, Instr.emitFinished, Instr.setRunning false,
            Instr.hideProgress, Instr.validateUi]
    ∧ (execFrom initSys [Instr.setRunning true]).process_running = true :=
  ⟨by decide,
    running_set_before_spawn initSys [] true 0 [Instr.setRunning true]
      [Instr.waitProc 0, Instr.emitFinished, Instr.setRunning false,
        Instr.hideProgress, Instr.validateUi] (by decide)⟩

/-- Claim C3 (counterexample): when reading the output stream fails partway
(here after one line, with exit status 1), the job trace contains no `wait`
call at all - the process is never reaped, because `process.wait()` sits
inside the `try` block that the read failure aborts. -/
theorem read_failure_skips_wait_cex :
    countWaits (qtJobTrace ["[download] 50%"] false 1) = 0
    ∧ (execFrom initSys (qtJobTrace ["[download] 50%"] false 1)).waited = 0 := by
  decide

/-- Claim C3 (amended): for every job - any lines read, any exit status,
read completed or failed partway - the `finally` block still pushes Finished
and the Running flag is cleared, so the system never stays in Running; the
final four statements are always `emitFinished, setRunning false,
hideProgress, validateUi` in that order; but the process is waited on
exactly when the read loop reaches end-of-stream, not on a read failure. -/
theorem runProcess_always_finalizes (st : SysState) (ls : List String)
    (readOk : Bool) (ec : Int) :
    (execFrom st (qtJobTrace ls readOk ec)).process_running = false
    ∧ (execFrom st (qtJobTrace ls readOk ec)).relay
        = st.relay ++ ls.map OutputEvent.line ++ [OutputEvent.finished]
    ∧ countWaits (qtJobTrace ls readOk ec) = (if readOk then 1 else 0)
    ∧ (qtJobTrace ls readOk ec).drop ((qtJobTrace ls readOk ec).length - 4)
        = [Instr.emitFinished, Instr.setRunning false, Instr.hideProgress,
            Instr.validateUi] := by
  refine ⟨by rw [exec_qtJobTrace], by rw [exec_qtJobTrace], ?_, ?_⟩
  · cases readOk <;>
      simp [qtJobTrace, runProcessQt, onFinishedHandler, countWaits_append,
        countWaits_pushLines, countWaits]
  · have hsplit : qtJobTrace ls readOk ec
        = ([Instr.setRunning true, Instr.spawnProc] ++ ls.map Instr.pushLine
            ++ (if readOk then [Instr.waitProc ec] else []))
          ++ [Instr.emitFinished, Instr.setRunning false, Instr.hideProgress,
              Instr.validateUi] := by
      simp [qtJobTrace, runProcessQt, onFinishedHandler]
    rw [hsplit, List.length_append]
    have hlen : ([Instr.emitFinished, Instr.setRunning false,
        Instr.hideProgress, Instr.validateUi] : List Instr).length = 4 := rfl
    rw [hlen, Nat.add_sub_cancel, List.drop_left]

/-- Claim C4: the relay is an exact-order FIFO - draining after any sequence
of pushes yields precisely the pushed events, none dropped, in production
order (`qput` is total, so the producer never blocks) - and the event stream
of a complete job is its output lines in order followed by Finished as the
last event, with no Line after it. -/
theorem relay_fifo_and_finished_last (q₀ evs : List OutputEvent)
    (ls : List String) (readOk : Bool) (ec : Int) :
    processQueue (List.foldl qput q₀ evs) = q₀ ++ evs
    ∧ jobEvents ls readOk ec
        = ls.map OutputEvent.line ++ [OutputEvent.finished] := by
  refine ⟨by rw [foldl_qput, processQueue_eq], ?_⟩
  unfold jobEvents
  rw [exec_qtJobTrace]
  rfl

/-- Claim C8: the Running to Idle transition is the first statement of the
finished handling, so once the consumer has observed a job's Finished event
the state no longer reports Running, and the re-enabling logic (`validate`)
computes from the already-reset flag: after the full job the Download button
is enabled exactly when the url field has text.  This holds for the Qt
handler and for the Tkinter finalization alike. -/
theorem finished_never_observes_running (st : SysState) (ls : List String)
    (readOk : Bool) (ec : Int) :
    (execFrom st (runProcessQt ls readOk ec
        ++ [Instr.setRunning false])).process_running = false
    ∧ (execFrom st (qtJobTrace ls readOk ec)).process_running = false
    ∧ (execFrom st (qtJobTrace ls readOk ec)).download_btn_enabled
        = st.url_has_text
    ∧ (execFrom st (runProcessTk ls readOk ec)).process_running = false
    ∧ (execFrom st (runProcessTk ls readOk ec)).download_btn_enabled
        = st.url_has_text := by
  refine ⟨?_, by rw [exec_qtJobTrace], by rw [exec_qtJobTrace],
    by rw [exec_runProcessTk], by rw [exec_runProcessTk]⟩
  rw [execFrom_append]
  rfl

/-- Claim C9: when the downloader executable is absent, the startup code
shows the error dialog and exits; the interactive surface is never launched
and the probe is attempted exactly once, not retried. -/
theorem missing_executable_fatal :
    startupTrace false
      = [StartupStep.updateProbe,
          StartupStep.showError "yt-dlp was not found in PATH",
          StartupStep.exitProgram 1]
    ∧ countLaunches (startupTrace false) = 0
    ∧ countProbes (startupTrace false) = 1
    ∧ countLaunches (startupTrace true) = 1 := by decide

end YtDlpGui
